import Mathlib

/-!
Verification of the Traffic_Data video pipeline (Video_Uploading.py and
Decompression.py) against its design specification.

The program is shallowly embedded: pure string manipulation (path handling,
URL construction, filename generation) becomes Lean functions on `String`;
the effectful pipeline (ffmpeg subprocess, `os.remove`, HTTP upload, the
capture loop) becomes functions from explicit oracles (subprocess outcome,
HTTP response, per-frame camera results and costs, wall-clock costs) to
traces of events, so that ordering and occurrence of side effects can be
stated and proved.  Wall-clock time is modelled by rationals threaded as
state; `time.monotonic` reads are the current state value and the costs of
the external calls are oracle inputs.
-/

namespace TrafficData

/-! ### POSIX path helpers (`os.path`) -/

/-- Index of the last occurrence of `c` in the list, mirroring Python
`str.rfind` (`none` when absent). -/
def rfindIdx (c : Char) : List Char → Option Nat
  | [] => none
  | a :: rest =>
    match rfindIdx c rest with
    | some i => some (i + 1)
    | none => if a = c then some 0 else none

/-- `os.path.basename` for POSIX paths: the part after the last slash. -/
def basenameChars (p : List Char) : List Char :=
  match rfindIdx '/' p with
  | none => p
  | some i => p.drop (i + 1)

/-- `os.path.basename` on strings. -/
def basename (s : String) : String := ⟨basenameChars s.data⟩

/-- `posixpath.splitext`: split off the extension at the last dot, provided
that dot lies after the last slash and the base name has some non-dot
character before it (so leading dots of the base name never start an
extension). -/
def splitextChars (p : List Char) : List Char × List Char :=
  let sepIndex : Int := match rfindIdx '/' p with | none => -1 | some s => (s : Int)
  let dotIndex : Int := match rfindIdx '.' p with | none => -1 | some s => (s : Int)
  if sepIndex < dotIndex then
    if (List.range p.length).any
        (fun k => decide (sepIndex < (k : Int)) && decide ((k : Int) < dotIndex)
          && decide (p.getD k '.' ≠ '.')) then
      (p.take dotIndex.toNat, p.drop dotIndex.toNat)
    else (p, [])
  else (p, [])

/-- `os.path.splitext` on strings. -/
def splitext (s : String) : String × String :=
  (⟨(splitextChars s.data).1⟩, ⟨(splitextChars s.data).2⟩)

/-- `posixpath.join` restricted to the two-argument form used by the code. -/
def joinPath (a b : String) : String :=
  if b.data.head? = some '/' then b
  else if a.data = [] ∨ a.data.getLast? = some '/' then a ++ b
  else a ++ "/" ++ b

/-! ### Timestamps (`time.strftime`) -/

/-- A broken-down local time, the fields `strftime` reads. -/
structure Tm where
  year : Nat
  month : Nat
  day : Nat
  hour : Nat
  minute : Nat
  second : Nat
deriving DecidableEq

/-- The decimal digit character for `n` (callers pass values below ten). -/
def digitChar (n : Nat) : Char :=
  if n = 0 then '0' else if n = 1 then '1' else if n = 2 then '2'
  else if n = 3 then '3' else if n = 4 then '4' else if n = 5 then '5'
  else if n = 6 then '6' else if n = 7 then '7' else if n = 8 then '8' else '9'

/-- Two-digit zero-padded rendering of a field value (as `%m`, `%d`, `%H`,
`%M`, `%S` print calendar-valid values). -/
def twoDigits (n : Nat) : List Char :=
  [digitChar (n / 10 % 10), digitChar (n % 10)]

/-- Four-digit rendering of the year (as `%Y` prints years 1000–9999). -/
def fourDigits (n : Nat) : List Char :=
  [digitChar (n / 1000 % 10), digitChar (n / 100 % 10),
   digitChar (n / 10 % 10), digitChar (n % 10)]

/-- Modelled external boundary: `time.strftime "%Y-%m-%d_%H-%M-%S"` applied
to a broken-down time, rendering each field zero-padded at the width the
format produces for calendar-valid values. -/
def strftimeTimestamp (t : Tm) : String :=
  ⟨fourDigits t.year ++ '-' :: twoDigits t.month ++ '-' :: twoDigits t.day
    ++ '_' :: twoDigits t.hour ++ '-' :: twoDigits t.minute
    ++ '-' :: twoDigits t.second⟩

/-- `VideoRecorder.generate_filename`: a timestamped file name joined onto
the output directory. -/
def generate_filename (output_directory : String) (t : Tm) : String :=
  joinPath output_directory ("video_" ++ strftimeTimestamp t ++ ".mp4")

/-! ### Compression and the per-segment background task -/

/-- Events of one background processing task. -/
inductive TEv
  | ffmpegRun (input output : String) (ok : Bool)
  | removeFile (path : String)
  | logMsg (msg : String)
  | uploadCall (path : String)
deriving DecidableEq

/-- The compressed file name `f"{base_name}_compressed{ext}"` built by
`compress_video` from `os.path.splitext input_file`. -/
def compressedName (input_file : String) : String :=
  (splitext input_file).1 ++ "_compressed" ++ (splitext input_file).2

/-- `VideoRecorder.compress_video`, with the ffmpeg subprocess outcome as an
oracle (`ffmpegOk = false` models `subprocess.run` raising
`CalledProcessError`).  Returns the value the Python function returns paired
with the trace of its side effects, in order. -/
def compress_video (ffmpegOk : Bool) (input_file : String) : String × List TEv :=
  if ffmpegOk then
    (compressedName input_file,
     [TEv.ffmpegRun input_file (compressedName input_file) true,
      TEv.removeFile input_file,
      TEv.logMsg ("Compressed video saved: " ++ compressedName input_file)])
  else
    (input_file,
     [TEv.ffmpegRun input_file (compressedName input_file) false,
      TEv.logMsg ("Error compressing video")])

/-- The body of the thread spawned by `VideoRecorder.process_video`:
compress, then hand the resulting path to `upload_video`. -/
def process_task (ffmpegOk : Bool) (video_filename : String) : List TEv :=
  (compress_video ffmpegOk video_filename).2
    ++ [TEv.uploadCall (compress_video ffmpegOk video_filename).1]

/-- `VideoRecorder.process_video`: returns `None` (here `Unit`) to its
caller after scheduling the background task; the second component is the
scheduled task as a function of the ffmpeg oracle. -/
def process_video (video_filename : String) : Unit × (Bool → List TEv) :=
  ((), fun ffmpegOk => process_task ffmpegOk video_filename)

/-! ### Upload routines -/

/-- Oracle for one HTTP upload attempt: either a response with a status
code, or a raised exception (file open failure, transport error, …). -/
inductive UploadResp
  | status (code : Nat)
  | exn
deriving DecidableEq

/-- What an upload routine reports before returning. -/
inductive UploadOutcome
  | successLogged
  | failureLogged (code : Nat)
  | errorLogged
deriving DecidableEq

/-- The `try` body of the thread inside `VideoRecorder.upload_video`:
`Except.error` models an exception escaping the body. -/
def upload_video_try (resp : UploadResp) : Except String UploadOutcome :=
  match resp with
  | UploadResp.status c =>
    Except.ok (if c = 201 then UploadOutcome.successLogged else UploadOutcome.failureLogged c)
  | UploadResp.exn => Except.error ("upload raised")

/-- `VideoRecorder.upload_video`'s worker with its `except Exception`
handler: every exception is caught and logged, so the routine is total. -/
def upload_video_task (resp : UploadResp) : UploadOutcome :=
  match upload_video_try resp with
  | Except.ok o => o
  | Except.error _ => UploadOutcome.errorLogged

/-- The `try` body of `upload_to_onedrive` in Decompression.py, whose
success check is `response.status_code in [200, 201]`. -/
def upload_to_onedrive_try (resp : UploadResp) : Except String UploadOutcome :=
  match resp with
  | UploadResp.status c =>
    Except.ok (if c ∈ ([200, 201] : List Nat) then UploadOutcome.successLogged
      else UploadOutcome.failureLogged c)
  | UploadResp.exn => Except.error ("upload raised")

/-- `upload_to_onedrive` with its `except Exception` handler. -/
def upload_to_onedrive_run (resp : UploadResp) : UploadOutcome :=
  match upload_to_onedrive_try resp with
  | Except.ok o => o
  | Except.error _ => UploadOutcome.errorLogged

/-- `VideoRecorder.get_upload_url`. -/
def get_upload_url (folder_id : String) (video_filename : String) : String :=
  "https://graph.microsoft.com/v1.0/me/drive/items/" ++ folder_id ++ ":/"
    ++ basename video_filename ++ ":/content"

/-- The upload URL built inside `upload_to_onedrive` in Decompression.py. -/
def upload_to_onedrive_url (folder_id : String) (file_path : String) : String :=
  "https://graph.microsoft.com/v1.0/me/drive/items/" ++ folder_id ++ ":/"
    ++ basename file_path ++ ":/content"

/-! ### The capture loop (`record_continuous`) -/

/-- Oracle input for one iteration of the inner frame loop: the result of
`self.cap.read()`, the measured wall-clock cost of the read / write / imshow
work (what `elapsed` comes out as), and whether `cv2.waitKey` reports the
stop key. -/
structure IterIn where
  readOk : Bool
  frameCost : ℚ
  keyQ : Bool
deriving DecidableEq

/-- Observable events of the capture path, in program order. -/
inductive Ev
  | recordingStarted (path : String)
  | frameWritten
  | sleepFor (d : ℚ)
  | logCaptureError
  | logStopManual
  | writerReleased (path : String)
  | videoSaved (path : String)
  | cameraReleased
  | submitSeg (path : String)
deriving DecidableEq

/-- How one segment's inner frame loop ended. -/
inductive SegResult
  | timeUp
  | readFail
  | manualStop
  | fuelOut
deriving DecidableEq

/-- The inner `while time.monotonic() < end_time` loop of
`record_continuous`, one list element per iteration the oracle models.
State is the monotonic clock; the result records how the loop ended, the
final clock value, and the trace of events.  `fuelOut` marks exhaustion of
the modelled oracle inputs while the loop would still run (a truncation
artifact, not a program behavior).  The stop-key test happens after the
pacing sleep, as in the code. -/
def segLoop (frame_interval endTime : ℚ) : ℚ → List IterIn → SegResult × ℚ × List Ev
  | t, [] => if t < endTime then (SegResult.fuelOut, t, []) else (SegResult.timeUp, t, [])
  | t, i :: rest =>
    if t < endTime then
      if i.readOk then
        if 0 < frame_interval - i.frameCost then
          if i.keyQ then
            (SegResult.manualStop, t + i.frameCost + (frame_interval - i.frameCost),
             [Ev.frameWritten, Ev.sleepFor (frame_interval - i.frameCost), Ev.logStopManual])
          else
            ((segLoop frame_interval endTime (t + i.frameCost + (frame_interval - i.frameCost)) rest).1,
             (segLoop frame_interval endTime (t + i.frameCost + (frame_interval - i.frameCost)) rest).2.1,
             Ev.frameWritten :: Ev.sleepFor (frame_interval - i.frameCost) ::
               (segLoop frame_interval endTime (t + i.frameCost + (frame_interval - i.frameCost)) rest).2.2)
        else
          if i.keyQ then
            (SegResult.manualStop, t + i.frameCost, [Ev.frameWritten, Ev.logStopManual])
          else
            ((segLoop frame_interval endTime (t + i.frameCost) rest).1,
             (segLoop frame_interval endTime (t + i.frameCost) rest).2.1,
             Ev.frameWritten :: (segLoop frame_interval endTime (t + i.frameCost) rest).2.2)
      else (SegResult.readFail, t, [Ev.logCaptureError])
    else (SegResult.timeUp, t, [])

/-- Oracle for one outer-loop iteration: the local time `strftime` sees when
the filename is generated, and the inner-loop iteration inputs. -/
structure SegOracle where
  tm : Tm
  iters : List IterIn

/-- `VideoRecorder.record_continuous`, one `SegOracle` per outer `while
True` iteration the oracle models.  On a failed frame read the code
`break`s out of the inner loop only, so the `finally` releases the writer
and the segment is still submitted via `process_video` before the next
outer iteration; only the stop key returns (releasing writer and camera,
with the `finally` releasing the writer a second time).  Submission is the
`Ev.submitSeg` event; the background tasks themselves are `process_task`. -/
def record_continuous (output_directory : String) (segment_duration fps : ℚ) :
    ℚ → List SegOracle → List Ev
  | _, [] => []
  | t, so :: rest =>
    match (segLoop (1 / fps) (t + segment_duration) t so.iters).1 with
    | SegResult.manualStop =>
      Ev.recordingStarted (generate_filename output_directory so.tm) ::
        (segLoop (1 / fps) (t + segment_duration) t so.iters).2.2
        ++ [Ev.writerReleased (generate_filename output_directory so.tm),
            Ev.cameraReleased,
            Ev.writerReleased (generate_filename output_directory so.tm),
            Ev.videoSaved (generate_filename output_directory so.tm)]
    | SegResult.fuelOut =>
      Ev.recordingStarted (generate_filename output_directory so.tm) ::
        (segLoop (1 / fps) (t + segment_duration) t so.iters).2.2
    | _ =>
      Ev.recordingStarted (generate_filename output_directory so.tm) ::
        (segLoop (1 / fps) (t + segment_duration) t so.iters).2.2
        ++ [Ev.writerReleased (generate_filename output_directory so.tm),
            Ev.videoSaved (generate_filename output_directory so.tm),
            Ev.submitSeg (generate_filename output_directory so.tm)]
        ++ record_continuous output_directory segment_duration fps
             (segLoop (1 / fps) (t + segment_duration) t so.iters).2.1 rest

/-! ### Filename shape checker -/

/-- Recognizes a `YYYY-MM-DD_HH-MM-SS` character block. -/
def timestampChars : List Char → Bool
  | [y1, y2, y3, y4, '-', m1, m2, '-', d1, d2, '_', h1, h2, '-', n1, n2, '-', s1, s2] =>
    y1.isDigit && y2.isDigit && y3.isDigit && y4.isDigit && m1.isDigit && m2.isDigit
      && d1.isDigit && d2.isDigit && h1.isDigit && h2.isDigit && n1.isDigit && n2.isDigit
      && s1.isDigit && s2.isDigit
  | _ => false

/-- Recognizes a segment file name `video_<YYYY-MM-DD_HH-MM-SS>.mp4`. -/
def segmentNameOK (s : String) : Bool :=
  match s.data with
  | 'v' :: 'i' :: 'd' :: 'e' :: 'o' :: '_' :: rest =>
    timestampChars (rest.take 19) && decide (rest.drop 19 = ['.', 'm', 'p', '4'])
  | _ => false

/-- Events a segment's inner frame loop can emit (everything else — writer
finalization, camera release, submission — happens outside it). -/
def innerLoopEv : Ev → Bool
  | Ev.frameWritten => true
  | Ev.sleepFor _ => true
  | Ev.logCaptureError => true
  | Ev.logStopManual => true
  | _ => false

/-! ### Helper lemmas -/

theorem mk_append (l₁ l₂ : List Char) :
    (⟨l₁⟩ : String) ++ (⟨l₂⟩ : String) = ⟨l₁ ++ l₂⟩ := rfl

theorem data_append (s t : String) : (s ++ t).data = s.data ++ t.data := rfl

theorem splitextChars_append (p : List Char) :
    (splitextChars p).1 ++ (splitextChars p).2 = p := by
  unfold splitextChars
  dsimp only
  split_ifs <;> simp

theorem splitext_append_eq (s : String) : (splitext s).1 ++ (splitext s).2 = s := by
  show (⟨(splitextChars s.data).1 ++ (splitextChars s.data).2⟩ : String) = s
  rw [splitextChars_append]

theorem digitChar_isDigit (n : Nat) : (digitChar n).isDigit = true := by
  unfold digitChar
  split_ifs <;> rfl

theorem timestampChars_strftime (t : Tm) :
    timestampChars (strftimeTimestamp t).data = true := by
  simp [strftimeTimestamp, fourDigits, twoDigits, timestampChars, digitChar_isDigit]

theorem strftime_length (t : Tm) : (strftimeTimestamp t).data.length = 19 := by
  simp [strftimeTimestamp, fourDigits, twoDigits]

theorem segmentNameOK_strftime (t : Tm) :
    segmentNameOK ("video_" ++ strftimeTimestamp t ++ ".mp4") = true := by
  have hd : ("video_" ++ strftimeTimestamp t ++ ".mp4").data
      = 'v' :: 'i' :: 'd' :: 'e' :: 'o' :: '_'
        :: ((strftimeTimestamp t).data ++ ['.', 'm', 'p', '4']) := by
    rw [data_append, data_append]
    rfl
  unfold segmentNameOK
  rw [hd]
  have htake : ((strftimeTimestamp t).data ++ ['.', 'm', 'p', '4']).take 19
      = (strftimeTimestamp t).data := by
    rw [List.take_left' (strftime_length t)]
  have hdrop : ((strftimeTimestamp t).data ++ ['.', 'm', 'p', '4']).drop 19
      = ['.', 'm', 'p', '4'] := by
    rw [List.drop_left' (strftime_length t)]
  simp [htake, hdrop, timestampChars_strftime]

theorem segLoop_events (fi endT : ℚ) (ins : List IterIn) :
    ∀ t, ∀ e ∈ (segLoop fi endT t ins).2.2, innerLoopEv e = true := by
  induction ins with
  | nil =>
    intro t e he
    simp only [segLoop] at he
    split_ifs at he <;> simp at he
  | cons i rest ih =>
    intro t e he
    simp only [segLoop] at he
    split_ifs at he
    · simp at he
      rcases he with rfl | rfl | rfl <;> rfl
    · simp at he
      rcases he with rfl | rfl | he
      · rfl
      · rfl
      · exact ih _ e he
    · simp at he
      rcases he with rfl | rfl <;> rfl
    · simp at he
      rcases he with rfl | he
      · rfl
      · exact ih _ e he
    · simp at he
      subst he
      rfl
    · simp at he

theorem segLoop_readFail_log (fi endT : ℚ) (ins : List IterIn) :
    ∀ t, (segLoop fi endT t ins).1 = SegResult.readFail →
      Ev.logCaptureError ∈ (segLoop fi endT t ins).2.2 := by
  induction ins with
  | nil =>
    intro t h
    simp only [segLoop] at h
    split_ifs at h
  | cons i rest ih =>
    intro t h
    simp only [segLoop] at h ⊢
    split_ifs at h ⊢ <;> simp_all

theorem segLoop_sleep (fi endT : ℚ) (ins : List IterIn) :
    ∀ t d, Ev.sleepFor d ∈ (segLoop fi endT t ins).2.2 →
      0 < d ∧ ∃ i ∈ ins, d = fi - i.frameCost := by
  induction ins with
  | nil =>
    intro t d h
    simp only [segLoop] at h
    split_ifs at h <;> simp at h
  | cons i rest ih =>
    intro t d h
    simp only [segLoop] at h
    split_ifs at h with h1 h2 h3 h4
    · simp at h
      subst h
      exact ⟨h3, i, List.mem_cons_self i rest, rfl⟩
    · simp at h
      rcases h with rfl | h
      · exact ⟨h3, i, List.mem_cons_self i rest, rfl⟩
      · rcases ih _ d h with ⟨hpos, j, hj, hd⟩
        exact ⟨hpos, j, List.mem_cons_of_mem i hj, hd⟩
    · simp at h
    · simp at h
      rcases ih _ d h with ⟨hpos, j, hj, hd⟩
      exact ⟨hpos, j, List.mem_cons_of_mem i hj, hd⟩
    · simp at h
    · simp at h

theorem record_head (dir : String) (dur fps t : ℚ) (so : SegOracle) (rest : List SegOracle) :
    Ev.recordingStarted (generate_filename dir so.tm)
      ∈ record_continuous dir dur fps t (so :: rest) := by
  simp only [record_continuous]
  cases hr : (segLoop (1 / fps) (t + dur) t so.iters).1 <;> simp

theorem record_manualStop_eq (dir : String) (dur fps t : ℚ) (so : SegOracle)
    (rest : List SegOracle)
    (h : (segLoop (1 / fps) (t + dur) t so.iters).1 = SegResult.manualStop) :
    record_continuous dir dur fps t (so :: rest)
      = Ev.recordingStarted (generate_filename dir so.tm)
          :: (segLoop (1 / fps) (t + dur) t so.iters).2.2
          ++ [Ev.writerReleased (generate_filename dir so.tm),
              Ev.cameraReleased,
              Ev.writerReleased (generate_filename dir so.tm),
              Ev.videoSaved (generate_filename dir so.tm)] := by
  simp only [record_continuous]
  rw [h]

theorem record_readFail_eq (dir : String) (dur fps t : ℚ) (so : SegOracle)
    (rest : List SegOracle)
    (h : (segLoop (1 / fps) (t + dur) t so.iters).1 = SegResult.readFail) :
    record_continuous dir dur fps t (so :: rest)
      = Ev.recordingStarted (generate_filename dir so.tm)
          :: (segLoop (1 / fps) (t + dur) t so.iters).2.2
          ++ [Ev.writerReleased (generate_filename dir so.tm),
              Ev.videoSaved (generate_filename dir so.tm),
              Ev.submitSeg (generate_filename dir so.tm)]
          ++ record_continuous dir dur fps
               (segLoop (1 / fps) (t + dur) t so.iters).2.1 rest := by
  simp only [record_continuous]
  rw [h]

theorem record_sleep (dir : String) (dur fps : ℚ) (oracles : List SegOracle) :
    ∀ t d, Ev.sleepFor d ∈ record_continuous dir dur fps t oracles →
      0 < d ∧ ∃ so ∈ oracles, ∃ i ∈ so.iters, d = 1 / fps - i.frameCost := by
  induction oracles with
  | nil =>
    intro t d h
    simp [record_continuous] at h
  | cons so rest ih =>
    intro t d h
    simp only [record_continuous] at h
    cases hr : (segLoop (1 / fps) (t + dur) t so.iters).1 <;> rw [hr] at h <;> simp at h
    case timeUp =>
      rcases h with h | h
      · rcases segLoop_sleep _ _ _ _ _ h with ⟨hpos, i, hi, hd⟩
        exact ⟨hpos, so, List.mem_cons_self so rest, i, hi, by rw [one_div]; exact hd⟩
      · rcases ih _ _ h with ⟨hpos, so2, hso2, i, hi, hd⟩
        exact ⟨hpos, so2, List.mem_cons_of_mem so hso2, i, hi, hd⟩
    case readFail =>
      rcases h with h | h
      · rcases segLoop_sleep _ _ _ _ _ h with ⟨hpos, i, hi, hd⟩
        exact ⟨hpos, so, List.mem_cons_self so rest, i, hi, by rw [one_div]; exact hd⟩
      · rcases ih _ _ h with ⟨hpos, so2, hso2, i, hi, hd⟩
        exact ⟨hpos, so2, List.mem_cons_of_mem so hso2, i, hi, hd⟩
    case manualStop =>
      rcases segLoop_sleep _ _ _ _ _ h with ⟨hpos, i, hi, hd⟩
      exact ⟨hpos, so, List.mem_cons_self so rest, i, hi, by rw [one_div]; exact hd⟩
    case fuelOut =>
      rcases segLoop_sleep _ _ _ _ _ h with ⟨hpos, i, hi, hd⟩
      exact ⟨hpos, so, List.mem_cons_self so rest, i, hi, by rw [one_div]; exact hd⟩

/-! ### The claims -/

/-- C1: when the ffmpeg invocation fails (`subprocess.CalledProcessError`),
`compress_video` returns the original input path unchanged, and the
background task of `process_video` still invokes the upload, with that
original (uncompressed) path. -/
theorem claim_C1_failure_uploads_original (f : String) :
    (compress_video false f).1 = f ∧
    TEv.uploadCall ((compress_video false f).1) ∈ process_task false f := by
  refine ⟨rfl, ?_⟩
  simp [process_task]

/-- C3: when compression succeeds, `compress_video` returns the compressed
derivative's path, the original input file is removed during the task, and
the upload is invoked with the compressed path, not the original. -/
theorem claim_C3_success_uploads_compressed (f : String) :
    (compress_video true f).1 = compressedName f ∧
    TEv.removeFile f ∈ process_task true f ∧
    TEv.uploadCall (compressedName f) ∈ process_task true f := by
  refine ⟨rfl, ?_, ?_⟩ <;> simp [process_task, compress_video]

/-- C9: on the failure path of `compress_video` no file removal happens at
all — `os.remove input_file` runs only after `subprocess.run` returns
successfully — so the background task leaves the input file untouched. -/
theorem claim_C9_no_delete_on_failure (f p : String) :
    TEv.removeFile p ∉ (compress_video false f).2 ∧
    TEv.removeFile p ∉ process_task false f := by
  constructor <;> simp [process_task, compress_video]

/-- C7: `process_video` returns no value to the capture loop (its immediate
result is `Unit`), and within the scheduled task the compression call occurs
at a strictly earlier trace position than the upload call, whatever the
ffmpeg outcome. -/
theorem claim_C7_compress_precedes_upload (ffmpegOk : Bool) (f : String) :
    (process_video f).1 = () ∧
    ∃ i j, i < j ∧
      ((process_video f).2 ffmpegOk).get? i
        = some (TEv.ffmpegRun f (compressedName f) ffmpegOk) ∧
      ((process_video f).2 ffmpegOk).get? j
        = some (TEv.uploadCall (compress_video ffmpegOk f).1) := by
  refine ⟨rfl, ?_⟩
  cases ffmpegOk
  · exact ⟨0, 2, by norm_num, rfl, rfl⟩
  · exact ⟨0, 3, by norm_num, rfl, rfl⟩

/-- C4: `upload_video` reports success exactly for HTTP 201 and
`upload_to_onedrive` exactly for HTTP 200 or 201; any other status is
reported as a logged failure and a raised exception is caught and logged,
so neither routine lets an exception propagate. -/
theorem claim_C4_upload_success_iff (c : Nat) :
    (upload_video_task (UploadResp.status c) = UploadOutcome.successLogged ↔ c = 201) ∧
    (upload_to_onedrive_run (UploadResp.status c) = UploadOutcome.successLogged
      ↔ (c = 200 ∨ c = 201)) ∧
    upload_video_task UploadResp.exn = UploadOutcome.errorLogged ∧
    upload_to_onedrive_run UploadResp.exn = UploadOutcome.errorLogged ∧
    (¬ c = 201 →
      upload_video_task (UploadResp.status c) = UploadOutcome.failureLogged c) ∧
    (¬ (c = 200 ∨ c = 201) →
      upload_to_onedrive_run (UploadResp.status c) = UploadOutcome.failureLogged c) := by
  refine ⟨?_, ?_, rfl, rfl, ?_, ?_⟩
  · unfold upload_video_task upload_video_try
    dsimp only
    split_ifs with h <;> simpa using h
  · unfold upload_to_onedrive_run upload_to_onedrive_try
    dsimp only
    split_ifs with h <;> simpa using h
  · intro h
    simp [upload_video_task, upload_video_try, h]
  · intro h
    have hn : ¬ c ∈ ([200, 201] : List Nat) := by simpa using h
    simp [upload_to_onedrive_run, upload_to_onedrive_try, hn]

/-- C4 witness: status 404 is reported as a logged failure by both
routines. -/
theorem claim_C4_witness :
    upload_video_task (UploadResp.status 404) = UploadOutcome.failureLogged 404 ∧
    upload_to_onedrive_run (UploadResp.status 404) = UploadOutcome.failureLogged 404 :=
  ⟨(claim_C4_upload_success_iff 404).2.2.2.2.1 (by decide),
   (claim_C4_upload_success_iff 404).2.2.2.2.2 (by decide)⟩

/-- C10: the OneDrive upload URL depends only on the folder id and the base
name of the file path — paths differing only in directory yield the same
URL — and the one-shot variant builds the identical URL. -/
theorem claim_C10_url_from_basename (fid p q : String)
    (h : basename p = basename q) :
    get_upload_url fid p = get_upload_url fid q ∧
    upload_to_onedrive_url fid p = get_upload_url fid p := by
  unfold get_upload_url upload_to_onedrive_url
  rw [h]
  exact ⟨rfl, rfl⟩

/-- C10 witness: two paths with equal base names in different directories
produce the same upload URL. -/
theorem claim_C10_witness :
    get_upload_url ("FID") ("/a/x.mp4") = get_upload_url ("FID") ("/b/x.mp4") ∧
    upload_to_onedrive_url ("FID") ("/a/x.mp4") = get_upload_url ("FID") ("/a/x.mp4") :=
  claim_C10_url_from_basename ("FID") ("/a/x.mp4") ("/b/x.mp4") (by decide)

/-- C8: every generated segment path is the output directory joined with a
name of the shape `video_<YYYY-MM-DD_HH-MM-SS>.mp4`, and for every input
path the compressed derivative is the input path's base (as split by
`os.path.splitext`) with `_compressed` inserted before the original
extension, the base and extension recombining to the input path. -/
theorem claim_C8_naming (dir : String) (t : Tm) (input : String) :
    generate_filename dir t = joinPath dir ("video_" ++ strftimeTimestamp t ++ ".mp4") ∧
    segmentNameOK ("video_" ++ strftimeTimestamp t ++ ".mp4") = true ∧
    (splitext input).1 ++ (splitext input).2 = input ∧
    compressedName input = (splitext input).1 ++ "_compressed" ++ (splitext input).2 :=
  ⟨rfl, segmentNameOK_strftime t, splitext_append_eq input, rfl⟩

/-- C6: every pacing sleep performed anywhere in the capture loop sleeps a
strictly positive duration equal to the frame interval `1 / fps` minus the
measured wall-clock cost of one of the processed frames. -/
theorem claim_C6_pacing (dir : String) (dur fps t d : ℚ) (oracles : List SegOracle)
    (h : Ev.sleepFor d ∈ record_continuous dir dur fps t oracles) :
    0 < d ∧ ∃ so ∈ oracles, ∃ i ∈ so.iters, d = 1 / fps - i.frameCost :=
  record_sleep dir dur fps oracles t d h

/-- C6 witness: a frame costing 0 at fps 1 makes the loop sleep exactly 1
second, the full interval. -/
theorem claim_C6_witness :
    Ev.sleepFor 1 ∈ record_continuous ("out") 2 1 0
        [⟨⟨2025, 1, 1, 0, 0, 0⟩, [⟨true, 0, false⟩]⟩] ∧
    (0 < (1 : ℚ) ∧ ∃ so ∈ [(⟨⟨2025, 1, 1, 0, 0, 0⟩, [⟨true, 0, false⟩]⟩ : SegOracle)],
      ∃ i ∈ so.iters, (1 : ℚ) = 1 / 1 - i.frameCost) := by
  have h : Ev.sleepFor 1 ∈ record_continuous ("out") 2 1 0
      [⟨⟨2025, 1, 1, 0, 0, 0⟩, [⟨true, 0, false⟩]⟩] := by
    norm_num [record_continuous, segLoop]
  exact ⟨h, claim_C6_pacing ("out") 2 1 0 1 _ h⟩

/-- C5: when the inner loop ends by the manual stop key, the writer and the
camera are released and the loop terminates: no segment is ever submitted
to `process_video` and no segment other than the in-flight one is started. -/
theorem claim_C5_manual_stop (dir : String) (dur fps t : ℚ) (so : SegOracle)
    (rest : List SegOracle)
    (h : (segLoop (1 / fps) (t + dur) t so.iters).1 = SegResult.manualStop) :
    Ev.writerReleased (generate_filename dir so.tm)
      ∈ record_continuous dir dur fps t (so :: rest) ∧
    Ev.cameraReleased ∈ record_continuous dir dur fps t (so :: rest) ∧
    (∀ p, Ev.submitSeg p ∉ record_continuous dir dur fps t (so :: rest)) ∧
    ∀ p, Ev.recordingStarted p ∈ record_continuous dir dur fps t (so :: rest) →
      p = generate_filename dir so.tm := by
  rw [record_manualStop_eq dir dur fps t so rest h]
  refine ⟨by simp, by simp, ?_, ?_⟩
  · intro p hp
    simp at hp
    have := segLoop_events _ _ _ _ _ hp
    simp [innerLoopEv] at this
  · intro p hp
    simp at hp
    rcases hp with hp | hp
    · exact hp
    · have := segLoop_events _ _ _ _ _ hp
      simp [innerLoopEv] at this

/-- C5 witness: a stop-key press on the first frame releases the camera and
nothing is submitted. -/
theorem claim_C5_witness :
    (segLoop ((1 : ℚ) / 1) ((0 : ℚ) + 2) 0 [⟨true, 0, true⟩]).1 = SegResult.manualStop ∧
    Ev.cameraReleased ∈ record_continuous ("out") 2 1 0
        [⟨⟨2025, 1, 1, 0, 0, 0⟩, [⟨true, 0, true⟩]⟩] ∧
    ∀ p, Ev.submitSeg p ∉ record_continuous ("out") 2 1 0
        [⟨⟨2025, 1, 1, 0, 0, 0⟩, [⟨true, 0, true⟩]⟩] := by
  have h : (segLoop ((1 : ℚ) / 1) ((0 : ℚ) + 2) 0 [⟨true, 0, true⟩]).1
      = SegResult.manualStop := by
    norm_num [segLoop]
  have main := claim_C5_manual_stop ("out") 2 1 0 ⟨⟨2025, 1, 1, 0, 0, 0⟩, [⟨true, 0, true⟩]⟩ [] h
  exact ⟨h, main.2.1, main.2.2.1⟩

/-- C2 counterexample: with the camera read failing on the first frame of
the first segment, the loop does not return: the aborted segment is still
submitted to `process_video` and a second, distinct segment is started. -/
theorem claim_C2_counterexample :
    (segLoop ((1 : ℚ) / 1) ((0 : ℚ) + 2) 0 [⟨false, 0, false⟩]).1 = SegResult.readFail ∧
    Ev.submitSeg (generate_filename ("out") ⟨2025, 1, 1, 0, 0, 0⟩)
      ∈ record_continuous ("out") 2 1 0
          [⟨⟨2025, 1, 1, 0, 0, 0⟩, [⟨false, 0, false⟩]⟩, ⟨⟨2025, 1, 1, 0, 5, 0⟩, []⟩] ∧
    Ev.recordingStarted (generate_filename ("out") ⟨2025, 1, 1, 0, 5, 0⟩)
      ∈ record_continuous ("out") 2 1 0
          [⟨⟨2025, 1, 1, 0, 0, 0⟩, [⟨false, 0, false⟩]⟩, ⟨⟨2025, 1, 1, 0, 5, 0⟩, []⟩] ∧
    generate_filename ("out") ⟨2025, 1, 1, 0, 0, 0⟩
      ≠ generate_filename ("out") ⟨2025, 1, 1, 0, 5, 0⟩ := by
  refine ⟨by norm_num [segLoop], ?_, ?_, by decide⟩
  · norm_num [record_continuous, segLoop]
  · norm_num [record_continuous, segLoop]

/-- C2 (amended): when a mid-segment frame read reports not-ok the loop
logs the failure and leaves only the inner frame loop: the writer is
released by the `finally`, but the aborted segment is still submitted to
`process_video`, and the outer loop proceeds to start the next segment
instead of returning. -/
theorem claim_C2_read_failure (dir : String) (dur fps t : ℚ) (so : SegOracle)
    (rest : List SegOracle)
    (h : (segLoop (1 / fps) (t + dur) t so.iters).1 = SegResult.readFail) :
    Ev.logCaptureError ∈ record_continuous dir dur fps t (so :: rest) ∧
    Ev.writerReleased (generate_filename dir so.tm)
      ∈ record_continuous dir dur fps t (so :: rest) ∧
    Ev.submitSeg (generate_filename dir so.tm)
      ∈ record_continuous dir dur fps t (so :: rest) ∧
    ∀ so2 rest2, rest = so2 :: rest2 →
      Ev.recordingStarted (generate_filename dir so2.tm)
        ∈ record_continuous dir dur fps t (so :: rest) := by
  have hlog := segLoop_readFail_log (1 / fps) (t + dur) so.iters t h
  rw [one_div] at hlog
  rw [record_readFail_eq dir dur fps t so rest h]
  refine ⟨by simp [hlog], by simp, by simp, ?_⟩
  intro so2 rest2 hr
  subst hr
  have hhead := record_head dir dur fps
    ((segLoop (1 / fps) (t + dur) t so.iters).2.1) so2 rest2
  rw [one_div] at hhead
  simp [hhead]

/-- C2 witness: the amended behavior at the counterexample input — the
aborted segment is submitted and the writer released. -/
theorem claim_C2_witness :
    (segLoop ((1 : ℚ) / 1) ((0 : ℚ) + 2) 0 [⟨false, 0, false⟩]).1 = SegResult.readFail ∧
    Ev.submitSeg (generate_filename ("out") ⟨2025, 1, 1, 0, 0, 0⟩)
      ∈ record_continuous ("out") 2 1 0
          [⟨⟨2025, 1, 1, 0, 0, 0⟩, [⟨false, 0, false⟩]⟩] := by
  have h : (segLoop ((1 : ℚ) / 1) ((0 : ℚ) + 2) 0 [⟨false, 0, false⟩]).1
      = SegResult.readFail := by
    norm_num [segLoop]
  exact ⟨h,
    (claim_C2_read_failure ("out") 2 1 0 ⟨⟨2025, 1, 1, 0, 0, 0⟩, [⟨false, 0, false⟩]⟩ [] h).2.2.1⟩

end TrafficData
